import Mathlib

/-!
Shallow embedding of the `arxiv_crawler` repository
(`arxiv_crawler_base.py`, `arxiv_crawler_linux.py`, `arxiv_crawler_windows.py`).

Papers are modelled as records whose date fields hold the already-formatted
`"%Y-%m-%d"` strings (the Python code always formats its `datetime` values
with that pattern before using them in paths or output).  Side-effecting code
is modelled as pure functions that return an explicit trace of effects
(directory creation, subprocess spawns, HTTP requests, file writes, sleeps,
log lines) together with the Python return value; `sys.exit` and uncaught
exceptions are modelled with explicit sum types.
-/

namespace ArxivCrawler

/-- A search-result record, as used by the crawler (`arxiv.Result` fields the
code reads: `get_short_id()`, `title`, `summary`, `authors`, `categories`,
`pdf_url`, `published`, `updated`, `comment`, `doi`). -/
structure Paper where
  id : String
  title : String
  abstract : String
  authors : List String
  categories : List String
  pdf_url : String
  published : String
  updated : String
  comment : Option String
  doi : Option String
deriving DecidableEq, Repr

/-- Python `str.lower()` (ASCII case folding suffices for the fixed keyword
lists of the crawler). -/
def lower (s : String) : String := s.map Char.toLower

/-- Does the second list start with the first one? -/
def listStartsWith : List Char → List Char → Bool
  | [], _ => true
  | _ :: _, [] => false
  | a :: as, b :: bs => a == b && listStartsWith as bs

/-- Does the second list contain the first as a contiguous sublist?
(Python's `needle in haystack` on strings.) -/
def listContains (needle : List Char) : List Char → Bool
  | [] => listStartsWith needle []
  | b :: bs => listStartsWith needle (b :: bs) || listContains needle bs

/-- Python `needle in hay` for strings. -/
def pyIn (needle hay : String) : Bool := listContains needle.data hay.data

/-- The default primary keyword list set in `ArxivCrawlerBase.__init__`. -/
def primary_keywords : List String :=
  ["diffusion model", "score based", "generative model"]

/-- The per-paper predicate of the post-filter in
`ArxivCrawlerBase.search_papers` (lines 81-87): the lowered title or lowered
abstract contains some lowered primary keyword. -/
def matchesPrimary (kws : List String) (p : Paper) : Bool :=
  let titleLower := lower p.title
  let abstractLower := lower p.abstract
  kws.any fun kw => pyIn (lower kw) titleLower || pyIn (lower kw) abstractLower

/-- The post-filter of `search_papers`: keep exactly the papers matching some
primary keyword. -/
def postFilter (kws : List String) (papers : List Paper) : List Paper :=
  papers.filter (matchesPrimary kws)

/-- One observable side effect of the crawler. -/
inductive Effect where
  | mkdir (path : String)
  | spawn (tool : String)
  | httpGet (url : String)
  | writeFile (path : String)
  | sleep (seconds : Nat)
  | logDebug (msg : String)
  | logInfo (msg : String)
  | logWarn (msg : String)
  | logError (msg : String)
deriving DecidableEq, Repr

/-- Number of effects in a trace satisfying a predicate. -/
def countEff (f : Effect → Bool) (es : List Effect) : Nat := (es.filter f).length

def isHttpGet : Effect → Bool
  | Effect.httpGet _ => true
  | _ => false

def isSleep : Effect → Bool
  | Effect.sleep _ => true
  | _ => false

/-- Network or subprocess activity. -/
def isNetOrSpawn : Effect → Bool
  | Effect.httpGet _ => true
  | Effect.spawn _ => true
  | _ => false

/-- A file write to the given path. -/
def writesTo (p : String) : Effect → Bool
  | Effect.writeFile q => q == p
  | _ => false

/-- `self.pdf_dir / pub_date` where `pub_date = paper.published.strftime("%Y-%m-%d")`
(`download_single_paper`, both platforms). -/
def datePdfDir (pdfDir : String) (p : Paper) : String :=
  pdfDir ++ "/" ++ p.published

/-- The canonical PDF path `pdfs/<published_date>/<id>.pdf`. -/
def pdfPath (pdfDir : String) (p : Paper) : String :=
  datePdfDir pdfDir p ++ "/" ++ p.id ++ ".pdf"

/-- `self.info_dir / pub_date` where, in `save_paper_info`, the variable
`pub_date` is in fact `paper.updated.strftime("%Y-%m-%d")`. -/
def dateInfoDir (infoDir : String) (p : Paper) : String :=
  infoDir ++ "/" ++ p.updated

/-- The metadata JSON path `info/<updated_date>/<id>.json`. -/
def infoPath (infoDir : String) (p : Paper) : String :=
  dateInfoDir infoDir p ++ "/" ++ p.id ++ ".json"

/-- The JSON object written by `ArxivCrawlerBase.save_paper_info`
(base, lines 99-110). -/
structure InfoRecord where
  id : String
  title : String
  authors : List String
  abstract : String
  categories : List String
  pdf_url : String
  published : String
  updated : String
  comment : Option String
  doi : Option String
deriving DecidableEq, Repr

/-- The record contents assembled by `save_paper_info`. -/
def paperInfoRecord (p : Paper) : InfoRecord :=
  { id := p.id, title := p.title, authors := p.authors, abstract := p.abstract
    categories := p.categories, pdf_url := p.pdf_url
    published := p.published, updated := p.updated
    comment := p.comment, doi := p.doi }

/-- `ArxivCrawlerBase.save_paper_info` (base, lines 92-116): make the
`info/<updated_date>` directory, write `<id>.json` there, return `True`.
Result: (effect trace, written path, written record). -/
def save_paper_info (infoDir : String) (p : Paper) : List Effect × String × InfoRecord :=
  ([Effect.mkdir (dateInfoDir infoDir p), Effect.writeFile (infoPath infoDir p)],
   infoPath infoDir p, paperInfoRecord p)

/-- `ArxivCrawlerBase.check_paper_exists` (base, lines 205-210): the PDF path
derived from `id` and `published` exists on disk.  `fsExists` models
`Path.exists`. -/
def check_paper_exists (pdfDir : String) (fsExists : String → Bool) (p : Paper) : Bool :=
  fsExists (pdfPath pdfDir p)

/-- Outcome of one `requests.get(paper.pdf_url, timeout=30)` call:
a response with a status code and body, or a raised transport exception. -/
inductive HttpResult where
  | ok (status : Nat) (content : String)
  | exn (msg : String)
deriving DecidableEq, Repr

/-- The response is present but has a non-200 status. -/
def httpErrStatus : HttpResult → Bool
  | HttpResult.ok s _ => decide (s ≠ 200)
  | HttpResult.exn _ => false

/-- The fallback loop `for attempt in range(retry)` shared verbatim by
`ArxivCrawlerLinux.download_single_paper` (lines 86-98) and
`ArxivCrawlerWindows.download_single_paper` (lines 86-98):
on HTTP 200 write the body to `pdf_path` and return success; on a non-200
status log a warning and go to the next attempt (no sleep); on a raised
exception log a warning, sleep 3 seconds, and go to the next attempt.
`http n` is the outcome of the `n`-th `requests.get`.  Recursion is on the
remaining attempt count `fuel`; `attempt` is the 0-based index used in the
log message. -/
def httpFallbackGo (url path : String) (http : Nat → HttpResult) (retry : Nat) :
    Nat → Nat → List Effect × Bool
  | _attempt, 0 => ([], false)
  | attempt, Nat.succ fuel =>
    match http attempt with
    | HttpResult.ok status _content =>
      if status = 200 then
        ([Effect.httpGet url, Effect.writeFile path, Effect.logDebug "普通下载成功"], true)
      else
        let r := httpFallbackGo url path http retry (attempt + 1) fuel
        (Effect.httpGet url ::
           Effect.logWarn ("下载失败 (尝试 " ++ toString (attempt + 1) ++ "/" ++
             toString retry ++ "): 状态码 " ++ toString status) :: r.1,
         r.2)
    | HttpResult.exn m =>
      let r := httpFallbackGo url path http retry (attempt + 1) fuel
      (Effect.httpGet url ::
         Effect.logWarn ("下载失败 (尝试 " ++ toString (attempt + 1) ++ "/" ++
           toString retry ++ "): " ++ m) ::
         Effect.sleep 3 :: r.1,
       r.2)

/-- The whole `for attempt in range(retry)` fallback loop. -/
def httpFallback (url path : String) (http : Nat → HttpResult) (retry : Nat) :
    List Effect × Bool :=
  httpFallbackGo url path http retry 0 retry

/-- A Python return value, or a process exit via `sys.exit(code)`. -/
inductive PyRet (α : Type) where
  | ret (v : α)
  | exited (code : Nat)
deriving DecidableEq, Repr

/-- Outcome of the `subprocess.run(["aria2c", ...])` call in
`ArxivCrawlerLinux.download_single_paper`: the process ran and returned an
exit code, the binary was missing (`FileNotFoundError`), or another
exception was raised. -/
inductive AriaResult where
  | exitCode (c : Int)
  | notFound
  | raised (msg : String)
deriving DecidableEq, Repr

/-- Environment of one Linux download: save root, filesystem, aria2c
behaviour and the HTTP responses of the fallback attempts. -/
structure LinuxEnv where
  pdfDir : String
  fsExists : String → Bool
  aria : AriaResult
  http : Nat → HttpResult

/-- Common tail of both pipelines: run the fallback loop; on success return
`(True, paper)`, otherwise log the final error and return `(False, paper)`
(lines 86-101 of both platform files). -/
def finishFallback (paper : Paper) (retry : Nat) (http : Nat → HttpResult)
    (path : String) (pre : List Effect) : List Effect × PyRet (Bool × Paper) :=
  let r := httpFallback paper.pdf_url path http retry
  if r.2 then
    (pre ++ r.1, PyRet.ret (true, paper))
  else
    (pre ++ r.1 ++ [Effect.logError ("所有下载方式均失败: " ++ paper.title)],
     PyRet.ret (false, paper))

/-- `ArxivCrawlerLinux.download_single_paper` (lines 36-101): make the date
directory; if the canonical PDF already exists return `(True, paper)`;
otherwise try `aria2c` (exit code 0 ⇒ success; `FileNotFoundError` ⇒ log the
install hint and `sys.exit(1)`; other exception ⇒ warn); on any non-fatal
aria2c failure fall through to the HTTP fallback loop. -/
def downloadSingleLinux (paper : Paper) (retry : Nat) (env : LinuxEnv) :
    List Effect × PyRet (Bool × Paper) :=
  let dateDir := datePdfDir env.pdfDir paper
  let path := pdfPath env.pdfDir paper
  if env.fsExists path then
    ([Effect.mkdir dateDir, Effect.logDebug ("论文已存在: " ++ paper.title)],
     PyRet.ret (true, paper))
  else
    let pre := [Effect.mkdir dateDir, Effect.logInfo ("正在下载: " ++ paper.title),
                Effect.spawn "aria2c"]
    match env.aria with
    | AriaResult.exitCode c =>
      if c = 0 then
        (pre ++ [Effect.logDebug ("aria2c 下载成功: " ++ paper.title)],
         PyRet.ret (true, paper))
      else
        finishFallback paper retry env.http path pre
    | AriaResult.notFound =>
      (pre ++ [Effect.logError "未找到 aria2c,请先安装: sudo apt install aria2"],
       PyRet.exited 1)
    | AriaResult.raised m =>
      finishFallback paper retry env.http path
        (pre ++ [Effect.logWarn ("aria2c 下载失败: " ++ m ++ ", 尝试普通下载")])

/-- The two installation paths probed for IDM
(`ArxivCrawlerWindows.download_single_paper`, lines 45-48). -/
def idmPath1 : String := "C:\\Program Files (x86)\\Internet Download Manager\\IDMan.exe"

def idmPath2 : String := "C:\\Program Files\\Internet Download Manager\\IDMan.exe"

/-- The `for path in idm_paths: if os.path.exists(path)` search (lines 49-53). -/
def findIdm (fsExists : String → Bool) : Option String :=
  if fsExists idmPath1 then some idmPath1
  else if fsExists idmPath2 then some idmPath2
  else none

/-- Environment of one Windows download.  `idmRaises` models an exception
raised inside the `try` block; `idmMakesFile` models whether the detached IDM
process produces the PDF within the 300-second polling window. -/
structure WinEnv where
  pdfDir : String
  fsExists : String → Bool
  idmRaises : Option String
  idmMakesFile : Bool
  http : Nat → HttpResult

/-- `ArxivCrawlerWindows.download_single_paper` (lines 28-101): make the date
directory; if the canonical PDF exists return `(True, paper)`; otherwise look
for IDM — if found, spawn it and poll for the file (success if it appears,
timeout error otherwise); if not found, log a warning; in either failure case
fall through to the HTTP fallback loop.  There is no fatal path. -/
def downloadSingleWindows (paper : Paper) (retry : Nat) (env : WinEnv) :
    List Effect × PyRet (Bool × Paper) :=
  let dateDir := datePdfDir env.pdfDir paper
  let path := pdfPath env.pdfDir paper
  if env.fsExists path then
    ([Effect.mkdir dateDir, Effect.logDebug ("论文已存在: " ++ paper.title)],
     PyRet.ret (true, paper))
  else
    let pre := [Effect.mkdir dateDir, Effect.logInfo ("正在下载: " ++ paper.title)]
    match env.idmRaises with
    | some m =>
      finishFallback paper retry env.http path
        (pre ++ [Effect.logWarn ("IDM 下载失败: " ++ m ++ ", 尝试普通下载")])
    | none =>
      match findIdm env.fsExists with
      | some _exe =>
        if env.idmMakesFile then
          (pre ++ [Effect.spawn "IDMan.exe", Effect.logDebug ("IDM 下载成功: " ++ paper.title)],
           PyRet.ret (true, paper))
        else
          finishFallback paper retry env.http path
            (pre ++ [Effect.spawn "IDMan.exe",
                     Effect.logError ("IDM 下载超时: " ++ paper.title)])
      | none =>
        finishFallback paper retry env.http path
          (pre ++ [Effect.logWarn "未找到 IDM 安装路径,尝试普通下载"])

/-- Comparison used by `sorted(papers_by_date.items(), reverse=True)`
(base, line 131): descending on the date key (keys of a dict are distinct, so
the tuple comparison never reaches the values). -/
def dateDescLe (a b : String × List Paper) : Bool := decide (b.1 ≤ a.1)

/-- Comparison used by `date_papers.sort(key=lambda x: x.title.lower())`
(base, line 134). -/
def titleLe (a b : Paper) : Bool := decide (lower a.title ≤ lower b.title)

/-- The ordering work of `generate_markdown`: date sections sorted descending
by date string, each section's records sorted ascending by lowercased
title.  Python's `sorted`/`list.sort` are stable merge sorts. -/
def genSections (m : List (String × List Paper)) : List (String × List Paper) :=
  (m.mergeSort dateDescLe).map fun s => (s.1, s.2.mergeSort titleLe)

/-- The lines written for one paper (base, lines 136-160). -/
def renderPaper (i : Nat) (p : Paper) : List String :=
  ["### " ++ toString i ++ ". " ++ p.title ++ "\n\n",
   "**Authors:** " ++ String.intercalate ", " p.authors ++ "\n\n",
   "**arXiv:** [" ++ p.id ++ "](" ++ p.pdf_url ++ ")\n\n",
   "**Submitted:** " ++ p.published ++ "\n",
   "**Updated:** " ++ p.updated ++ "\n\n"]
  ++ (match p.comment with
      | some c => if c = "" then [] else ["**Comments:** " ++ c ++ "\n\n"]
      | none => [])
  ++ (match p.doi with
      | some d =>
        if d = "" then [] else ["**DOI:** [" ++ d ++ "](https://doi.org/" ++ d ++ ")\n\n"]
      | none => [])
  ++ ["**Categories:** " ++ String.intercalate ", " p.categories ++ "\n\n",
      "**Abstract:**\n", p.abstract ++ "\n\n", "---\n\n"]

/-- The lines written for one date section (base, lines 131-160):
header, then the papers enumerated from 1. -/
def renderSection (s : String × List Paper) : List String :=
  ("## " ++ s.1 ++ "\n\n") ::
    (List.enumFrom 1 s.2).flatMap fun ip => renderPaper ip.1 ip.2

/-- `total_papers = sum(len(papers) for papers in papers_by_date.values())`
(base, line 163). -/
def digestTotal (m : List (String × List Paper)) : Nat :=
  (m.map fun s => s.2.length).sum

/-- Python `min` over the dict's keys: `none` means the `ValueError` raised
on an empty sequence. -/
def keysMin : List String → Option String
  | [] => none
  | k :: ks => some (ks.foldl min k)

/-- Python `max` over the dict's keys. -/
def keysMax : List String → Option String
  | [] => none
  | k :: ks => some (ks.foldl max k)

/-- Result of `generate_markdown`: the lines flushed to the digest file and
whether the call raised before completing. -/
structure GenResult where
  lines : List String
  raised : Bool
deriving DecidableEq, Repr

/-- `ArxivCrawlerBase.generate_markdown` (base, lines 118-169).  A `None`
mapping is normalised to `\x7b\x7d`; the header, the sorted sections, the
statistics header and the total count are written in order; computing the
date range with `min`/`max` raises `ValueError` when the mapping is empty,
leaving the lines written so far in the file. -/
def generate_markdown (papersByDate : Option (List (String × List Paper)))
    (date now : String) : GenResult :=
  let m := papersByDate.getD []
  let body := (genSections m).flatMap renderSection
  let pre := ("# 扩散模型相关论文 (" ++ date ++ ")\n\n") :: body
    ++ ["\n## 统计信息\n\n", "- 总论文数: " ++ toString (digestTotal m) ++ "\n"]
  match keysMin (m.map Prod.fst), keysMax (m.map Prod.fst) with
  | some lo, some hi =>
    { lines := pre ++ ["- 日期范围: " ++ lo ++ " 至 " ++ hi ++ "\n",
                       "- 生成时间: " ++ now ++ "\n"],
      raised := false }
  | _, _ => { lines := pre, raised := true }

/-- Outcome of one `save_paper_info` call inside the result-collection loop:
it returned normally or raised during the JSON write. -/
inductive SaveOutcome where
  | savedOk
  | saveRaised (msg : String)
deriving DecidableEq, Repr

/-- The result-collection loop of `ArxivCrawlerLinux.run` (lines 128-132,
identical on Windows): for each completed future `(success, paper)`, if
`success` then call `save_paper_info(paper)` — which may raise, and nothing
catches it, so the exception propagates out of `run` — and append the paper
to `downloaded_papers`.  Input: the completed futures in completion order,
each with the outcome its save call would have. -/
def collectLoop : List ((Bool × Paper) × SaveOutcome) → Except String (List Paper)
  | [] => Except.ok []
  | ((success, paper), so) :: rest =>
    if success then
      match so with
      | SaveOutcome.saveRaised m => Except.error m
      | SaveOutcome.savedOk =>
        match collectLoop rest with
        | Except.error m => Except.error m
        | Except.ok l => Except.ok (paper :: l)
    else collectLoop rest

/-- The tail of `run` (lines 128-138): collect results, then generate the
digest input `\x7btoday: downloaded_papers\x7d` only if `downloaded_papers`
is non-empty.  Returns the persisted papers and the digest mapping (`none`
when no digest is generated), or the uncaught save exception. -/
def runTail (results : List ((Bool × Paper) × SaveOutcome)) (today : String) :
    Except String (List Paper × Option (List (String × List Paper))) :=
  match collectLoop results with
  | Except.error m => Except.error m
  | Except.ok dl =>
    Except.ok (dl, if dl.isEmpty then none else some [(today, dl)])

/-- `ArxivCrawlerLinux.download_paper` (lines 31-34): run
`download_single_paper` and `return None` regardless of its result
(a `sys.exit` inside still terminates the process). -/
def download_paper_linux (paper : Paper) (retry : Nat) (env : LinuxEnv) :
    List Effect × PyRet (Option Bool) :=
  match downloadSingleLinux paper retry env with
  | (es, PyRet.exited c) => (es, PyRet.exited c)
  | (es, PyRet.ret _succPair) => (es, PyRet.ret none)

/-- `ArxivCrawlerWindows.download_paper` (lines 23-26): run
`download_single_paper` and `return None` regardless of its result. -/
def download_paper_windows (paper : Paper) (retry : Nat) (env : WinEnv) :
    List Effect × PyRet (Option Bool) :=
  match downloadSingleWindows paper retry env with
  | (es, PyRet.exited c) => (es, PyRet.exited c)
  | (es, PyRet.ret _succPair) => (es, PyRet.ret none)

/-- Python truthiness of the value returned by `download_paper`
(`None` is falsy). -/
def truthy : Option Bool → Bool
  | none => false
  | some b => b

/-- The download loop of `ArxivCrawlerBase.run` (lines 186-189): for each new
paper, `if self.download_paper(paper):` persist and collect it.  Returns the
collected papers and an exit code if a download terminated the process. -/
def baseRunGo (dp : Paper → List Effect × PyRet (Option Bool)) :
    List Paper → List Paper × Option Nat
  | [] => ([], none)
  | p :: rest =>
    match (dp p).2 with
    | PyRet.exited c => ([], some c)
    | PyRet.ret v =>
      if truthy v then
        let r := baseRunGo dp rest
        (p :: r.1, r.2)
      else baseRunGo dp rest

/-- The tail of `ArxivCrawlerBase.run` (lines 184-195): run the download
loop, then generate the digest iff it completed and collected at least one
paper.  Result: (persisted papers, digest generated?, exit code). -/
def base_run (dp : Paper → List Effect × PyRet (Option Bool)) (newPapers : List Paper) :
    List Paper × Bool × Option Nat :=
  let r := baseRunGo dp newPapers
  (r.1, r.2.isNone && !r.1.isEmpty, r.2)

end ArxivCrawler

namespace ArxivCrawler

/-- C6: `search_papers`' post-filter retains exactly the results whose title
or abstract contains a primary keyword as a case-insensitive substring, and
the filter is idempotent. -/
theorem search_postFilter_exact_and_idempotent (kws : List String) (l : List Paper) :
    postFilter kws (postFilter kws l) = postFilter kws l ∧
    ∀ p : Paper, p ∈ postFilter kws l ↔ p ∈ l ∧ matchesPrimary kws p = true := by
  constructor
  · simp [postFilter, List.filter_filter]
  · intro p
    simp [postFilter, List.mem_filter]

/-- C8: `save_paper_info` writes the metadata JSON to
`info/<updated_date>/<id>.json`, creating the date directory, while
`check_paper_exists` probes `pdfs/<published_date>/<id>.pdf`; both dates are
stored as fields of the written record. -/
theorem metadata_updated_pdf_published_partition (infoDir pdfDir : String)
    (fs : String → Bool) (p : Paper) :
    (save_paper_info infoDir p).2.1 = infoDir ++ "/" ++ p.updated ++ "/" ++ p.id ++ ".json" ∧
    Effect.mkdir (infoDir ++ "/" ++ p.updated) ∈ (save_paper_info infoDir p).1 ∧
    Effect.writeFile (infoDir ++ "/" ++ p.updated ++ "/" ++ p.id ++ ".json")
      ∈ (save_paper_info infoDir p).1 ∧
    check_paper_exists pdfDir fs p
      = fs (pdfDir ++ "/" ++ p.published ++ "/" ++ p.id ++ ".pdf") ∧
    (paperInfoRecord p).published = p.published ∧
    (paperInfoRecord p).updated = p.updated := by
  refine ⟨rfl, ?_, ?_, rfl, rfl, rfl⟩
  · simp [save_paper_info, dateInfoDir]
  · simp [save_paper_info, infoPath, dateInfoDir]

/-- C10: `generate_markdown` on an empty mapping (or `None`, normalised to
empty) writes the document header and a zero total-paper count, then raises
computing the date range over the empty key set, leaving the truncated
output behind. -/
theorem generate_markdown_empty_raises (date now : String) :
    generate_markdown none date now = generate_markdown (some []) date now ∧
    (generate_markdown none date now).raised = true ∧
    (generate_markdown none date now).lines =
      ["# 扩散模型相关论文 (" ++ date ++ ")\n\n",
       "\n## 统计信息\n\n", "- 总论文数: 0\n"] := by
  refine ⟨rfl, rfl, ?_⟩
  simp only [generate_markdown, genSections, digestTotal, keysMin, keysMax,
    Option.getD, List.mergeSort_nil, List.map_nil, List.flatMap_nil, List.sum_nil,
    List.nil_append, List.cons_append]
  rfl

/-- C2: when the canonical PDF already exists, `check_paper_exists` is true
and `download_single_paper` returns success immediately, with no network or
subprocess effect and no write to the canonical path. -/
theorem existing_pdf_short_circuits (paper : Paper) (retry : Nat) (env : LinuxEnv)
    (hfs : env.fsExists (pdfPath env.pdfDir paper) = true) :
    check_paper_exists env.pdfDir env.fsExists paper = true ∧
    (downloadSingleLinux paper retry env).2 = PyRet.ret (true, paper) ∧
    countEff isNetOrSpawn (downloadSingleLinux paper retry env).1 = 0 ∧
    countEff (writesTo (pdfPath env.pdfDir paper)) (downloadSingleLinux paper retry env).1 = 0 := by
  refine ⟨hfs, ?_, ?_, ?_⟩ <;>
    simp [downloadSingleLinux, hfs, countEff, isNetOrSpawn, writesTo]

/-- A sample paper record used to instantiate hypothesis-bearing theorems. -/
def samplePaper : Paper :=
  { id := "2406.01234v1", title := "Diffusion Models Rock"
    abstract := "We study diffusion model sampling."
    authors := ["A. One", "B. Two"], categories := ["cs.CV", "cs.LG"]
    pdf_url := "http://arxiv.org/pdf/2406.01234v1"
    published := "2024-06-02", updated := "2024-06-03"
    comment := none, doi := none }

/-- A Linux environment whose filesystem already holds every file. -/
def allFilesEnv : LinuxEnv :=
  { pdfDir := "/papers/pdfs", fsExists := fun _ => true
    aria := AriaResult.exitCode 0, http := fun _ => HttpResult.ok 200 "" }

/-- C2 witness at a concrete paper and environment. -/
theorem existing_pdf_short_circuits_witness :
    allFilesEnv.fsExists (pdfPath allFilesEnv.pdfDir samplePaper) = true ∧
    (check_paper_exists allFilesEnv.pdfDir allFilesEnv.fsExists samplePaper = true ∧
     (downloadSingleLinux samplePaper 3 allFilesEnv).2 = PyRet.ret (true, samplePaper) ∧
     countEff isNetOrSpawn (downloadSingleLinux samplePaper 3 allFilesEnv).1 = 0 ∧
     countEff (writesTo (pdfPath allFilesEnv.pdfDir samplePaper))
       (downloadSingleLinux samplePaper 3 allFilesEnv).1 = 0) :=
  ⟨rfl, existing_pdf_short_circuits samplePaper 3 allFilesEnv rfl⟩

theorem finishFallback_snd (paper : Paper) (retry : Nat) (http : Nat → HttpResult)
    (path : String) (pre : List Effect) :
    (finishFallback paper retry http path pre).2 =
      PyRet.ret ((httpFallback paper.pdf_url path http retry).2, paper) := by
  by_cases h : (httpFallback paper.pdf_url path http retry).2 = true
  · simp [finishFallback, h]
  · rw [Bool.not_eq_true] at h
    simp [finishFallback, h]

theorem downloadSingleLinux_ret_or_exit1 (paper : Paper) (retry : Nat) (env : LinuxEnv) :
    (∃ b, (downloadSingleLinux paper retry env).2 = PyRet.ret (b, paper)) ∨
    (downloadSingleLinux paper retry env).2 = PyRet.exited 1 := by
  by_cases hfs : env.fsExists (pdfPath env.pdfDir paper) = true
  · exact Or.inl ⟨true, by simp [downloadSingleLinux, hfs]⟩
  · cases haria : env.aria with
    | exitCode c =>
      by_cases hc : c = 0
      · exact Or.inl ⟨true, by simp [downloadSingleLinux, hfs, haria, hc]⟩
      · exact Or.inl ⟨(httpFallback paper.pdf_url (pdfPath env.pdfDir paper) env.http retry).2,
          by simp [downloadSingleLinux, hfs, haria, hc, finishFallback_snd]⟩
    | notFound => exact Or.inr (by simp [downloadSingleLinux, hfs, haria])
    | raised m =>
      exact Or.inl ⟨(httpFallback paper.pdf_url (pdfPath env.pdfDir paper) env.http retry).2,
        by simp [downloadSingleLinux, hfs, haria, finishFallback_snd]⟩

theorem downloadSingleWindows_ret (paper : Paper) (retry : Nat) (env : WinEnv) :
    ∃ b, (downloadSingleWindows paper retry env).2 = PyRet.ret (b, paper) := by
  by_cases hfs : env.fsExists (pdfPath env.pdfDir paper) = true
  · exact ⟨true, by simp [downloadSingleWindows, hfs]⟩
  · cases hidm : env.idmRaises with
    | some m =>
      exact ⟨(httpFallback paper.pdf_url (pdfPath env.pdfDir paper) env.http retry).2,
        by simp [downloadSingleWindows, hfs, hidm, finishFallback_snd]⟩
    | none =>
      cases hfind : findIdm env.fsExists with
      | some exe =>
        by_cases hmk : env.idmMakesFile = true
        · exact ⟨true, by simp [downloadSingleWindows, hfs, hidm, hfind, hmk]⟩
        · exact ⟨(httpFallback paper.pdf_url (pdfPath env.pdfDir paper) env.http retry).2,
            by simp [downloadSingleWindows, hfs, hidm, hfind, hmk, finishFallback_snd]⟩
      | none =>
        exact ⟨(httpFallback paper.pdf_url (pdfPath env.pdfDir paper) env.http retry).2,
          by simp [downloadSingleWindows, hfs, hidm, hfind, finishFallback_snd]⟩

theorem download_paper_windows_none (p : Paper) (retry : Nat) (env : WinEnv) :
    (download_paper_windows p retry env).2 = PyRet.ret none := by
  obtain ⟨b, hb⟩ := downloadSingleWindows_ret p retry env
  unfold download_paper_windows
  cases hds : downloadSingleWindows p retry env with
  | mk es r =>
    rw [hds] at hb
    cases r with
    | ret v => rfl
    | exited c => simp at hb

theorem download_paper_linux_none_or_exit1 (p : Paper) (retry : Nat) (env : LinuxEnv) :
    (download_paper_linux p retry env).2 = PyRet.ret none ∨
    (download_paper_linux p retry env).2 = PyRet.exited 1 := by
  rcases downloadSingleLinux_ret_or_exit1 p retry env with ⟨b, hb⟩ | he
  · left
    unfold download_paper_linux
    cases hds : downloadSingleLinux p retry env with
    | mk es r =>
      rw [hds] at hb
      cases r with
      | ret v => rfl
      | exited c => simp at hb
  · right
    unfold download_paper_linux
    cases hds : downloadSingleLinux p retry env with
    | mk es r =>
      rw [hds] at he
      cases r with
      | ret v => simp at he
      | exited c =>
        simp at he
        simp [he]

theorem baseRunGo_nil (dp : Paper → List Effect × PyRet (Option Bool))
    (h : ∀ p, (dp p).2 = PyRet.ret none ∨ ∃ c, (dp p).2 = PyRet.exited c) :
    ∀ papers, (baseRunGo dp papers).1 = [] := by
  intro papers
  induction papers with
  | nil => rfl
  | cons p rest ih =>
    rcases h p with h1 | ⟨c, h1⟩ <;> simp [baseRunGo, h1, truthy, ih]

/-- C9: both platform overrides of `download_paper` return `None`
unconditionally (or terminate the process with exit code 1 on Linux when
`aria2c` is missing), so the base class's `run`, which branches on the return
value's truthiness, never persists metadata and never generates a digest. -/
theorem download_paper_none_starves_base_run :
    (∀ (p : Paper) (retry : Nat) (env : WinEnv),
      (download_paper_windows p retry env).2 = PyRet.ret none) ∧
    (∀ (p : Paper) (retry : Nat) (env : LinuxEnv),
      (download_paper_linux p retry env).2 = PyRet.ret none ∨
      (download_paper_linux p retry env).2 = PyRet.exited 1) ∧
    (∀ (envOf : Paper → LinuxEnv) (papers : List Paper),
      (base_run (fun p => download_paper_linux p 3 (envOf p)) papers).1 = [] ∧
      (base_run (fun p => download_paper_linux p 3 (envOf p)) papers).2.1 = false) ∧
    (∀ (envOf : Paper → WinEnv) (papers : List Paper),
      (base_run (fun p => download_paper_windows p 3 (envOf p)) papers).1 = [] ∧
      (base_run (fun p => download_paper_windows p 3 (envOf p)) papers).2.1 = false) := by
  have hl : ∀ (envOf : Paper → LinuxEnv) (p : Paper),
      ((fun p => download_paper_linux p 3 (envOf p)) p).2 = PyRet.ret none ∨
      ∃ c, ((fun p => download_paper_linux p 3 (envOf p)) p).2 = PyRet.exited c := by
    intro envOf p
    rcases download_paper_linux_none_or_exit1 p 3 (envOf p) with h | h
    · exact Or.inl h
    · exact Or.inr ⟨1, h⟩
  have hw : ∀ (envOf : Paper → WinEnv) (p : Paper),
      ((fun p => download_paper_windows p 3 (envOf p)) p).2 = PyRet.ret none ∨
      ∃ c, ((fun p => download_paper_windows p 3 (envOf p)) p).2 = PyRet.exited c := by
    intro envOf p
    exact Or.inl (download_paper_windows_none p 3 (envOf p))
  refine ⟨fun p r e => download_paper_windows_none p r e,
          fun p r e => download_paper_linux_none_or_exit1 p r e, ?_, ?_⟩
  · intro envOf papers
    have h1 := baseRunGo_nil _ (hl envOf) papers
    constructor
    · simpa [base_run] using h1
    · simp [base_run, h1]
  · intro envOf papers
    have h1 := baseRunGo_nil _ (hw envOf) papers
    constructor
    · simpa [base_run] using h1
    · simp [base_run, h1]

/-- A second sample paper, with optional fields populated. -/
def samplePaper2 : Paper :=
  { id := "2406.09999v2", title := "A Score Based Method"
    abstract := "Score based generative model training."
    authors := ["C. Three"], categories := ["cs.LG"]
    pdf_url := "http://arxiv.org/pdf/2406.09999v2"
    published := "2024-06-05", updated := "2024-06-06"
    comment := some "10 pages", doi := some "10.1000/x123" }

theorem collectLoop_all_saved (results : List ((Bool × Paper) × SaveOutcome))
    (h : ∀ r ∈ results, r.2 = SaveOutcome.savedOk) :
    collectLoop results
      = Except.ok ((results.filter fun r => r.1.1).map fun r => r.1.2) := by
  induction results with
  | nil => rfl
  | cons r rest ih =>
    obtain ⟨⟨success, paper⟩, so⟩ := r
    have hso : so = SaveOutcome.savedOk := h _ (List.mem_cons_self _ _)
    subst hso
    have ih2 := ih fun r hr => h r (List.mem_cons_of_mem _ hr)
    cases success
    · simp [collectLoop, ih2, List.filter_cons]
    · simp [collectLoop, ih2, List.filter_cons]

theorem filter_length_partition (l : List ((Bool × Paper) × SaveOutcome)) :
    (l.filter fun r => r.1.1).length + (l.filter fun r => !r.1.1).length = l.length := by
  induction l with
  | nil => rfl
  | cons a l ih =>
    cases h : a.1.1 <;> simp [List.filter_cons, h] <;> omega

/-- C4: when every save succeeds, the run persists exactly the successful
papers — N − K of the N processed when K fail — the digest contains exactly
those papers under the run date, its total-paper statistic equals N − K, and
the digest is generated only when at least one success occurred. -/
theorem run_digest_counts (results : List ((Bool × Paper) × SaveOutcome)) (today : String)
    (h : ∀ r ∈ results, r.2 = SaveOutcome.savedOk) :
    collectLoop results
      = Except.ok ((results.filter fun r => r.1.1).map fun r => r.1.2) ∧
    ((results.filter fun r => r.1.1).map fun r => r.1.2).length
      = results.length - (results.filter fun r => !r.1.1).length ∧
    runTail results today
      = Except.ok ((results.filter fun r => r.1.1).map fun r => r.1.2,
          if ((results.filter fun r => r.1.1).map fun r => r.1.2).isEmpty then none
          else some [(today, (results.filter fun r => r.1.1).map fun r => r.1.2)]) ∧
    digestTotal [(today, (results.filter fun r => r.1.1).map fun r => r.1.2)]
      = results.length - (results.filter fun r => !r.1.1).length ∧
    (((results.filter fun r => r.1.1).map fun r => r.1.2).isEmpty = true ↔
      ∀ r ∈ results, r.1.1 = false) := by
  have hcl := collectLoop_all_saved results h
  have hpart := filter_length_partition results
  have hlen : ((results.filter fun r => r.1.1).map fun r => r.1.2).length
      = results.length - (results.filter fun r => !r.1.1).length := by
    simp only [List.length_map]
    omega
  refine ⟨hcl, hlen, ?_, ?_, ?_⟩
  · simp [runTail, hcl]
  · simp [digestTotal, hlen]
  · simp [List.isEmpty_iff, List.filter_eq_nil_iff]

/-- Concrete worker-pool outcome for the C4 witness: one success, one
permanent failure, all saves fine. -/
def c4Results : List ((Bool × Paper) × SaveOutcome) :=
  [((true, samplePaper), SaveOutcome.savedOk),
   ((false, samplePaper2), SaveOutcome.savedOk)]

/-- C4 witness at a concrete completed-futures list. -/
theorem run_digest_counts_witness :
    collectLoop c4Results
      = Except.ok ((c4Results.filter fun r => r.1.1).map fun r => r.1.2) ∧
    ((c4Results.filter fun r => r.1.1).map fun r => r.1.2).length
      = c4Results.length - (c4Results.filter fun r => !r.1.1).length ∧
    runTail c4Results "2026-10-12"
      = Except.ok ((c4Results.filter fun r => r.1.1).map fun r => r.1.2,
          if ((c4Results.filter fun r => r.1.1).map fun r => r.1.2).isEmpty then none
          else some [("2026-10-12", (c4Results.filter fun r => r.1.1).map fun r => r.1.2)]) ∧
    digestTotal [("2026-10-12", (c4Results.filter fun r => r.1.1).map fun r => r.1.2)]
      = c4Results.length - (c4Results.filter fun r => !r.1.1).length ∧
    (((c4Results.filter fun r => r.1.1).map fun r => r.1.2).isEmpty = true ↔
      ∀ r ∈ c4Results, r.1.1 = false) :=
  run_digest_counts c4Results "2026-10-12" (by decide)

/-- Concrete completed-futures list for the C3 counterexample: the first
collected success's metadata save raises, a second success is still pending
collection. -/
def c3Results : List ((Bool × Paper) × SaveOutcome) :=
  [((true, samplePaper), SaveOutcome.saveRaised "disk full"),
   ((true, samplePaper2), SaveOutcome.savedOk)]

/-- C3 counterexample: the save failure is not demoted to a warning — the
run's result loop raises, no `Except.ok` outcome (and hence no digest)
exists, and the paper appears in no digest. -/
theorem save_failure_not_warning_cex :
    runTail c3Results "2026-10-12" = Except.error "disk full" ∧
    ∀ out, runTail c3Results "2026-10-12" ≠ Except.ok out := by
  refine ⟨rfl, ?_⟩
  intro out h
  simp [runTail, collectLoop, c3Results] at h

theorem collectLoop_err (m : String) (p : Paper)
    (post : List ((Bool × Paper) × SaveOutcome)) :
    ∀ pre : List ((Bool × Paper) × SaveOutcome),
      (∀ r ∈ pre, r.1.1 = true → r.2 = SaveOutcome.savedOk) →
      collectLoop (pre ++ ((true, p), SaveOutcome.saveRaised m) :: post)
        = Except.error m := by
  intro pre
  induction pre with
  | nil => intro _; rfl
  | cons r rest ih =>
    intro hpre
    obtain ⟨⟨success, q⟩, so⟩ := r
    have ih2 := ih fun r hr hs => hpre r (List.mem_cons_of_mem _ hr) hs
    cases success
    · simpa [collectLoop] using ih2
    · have hso : so = SaveOutcome.savedOk := hpre _ (List.mem_cons_self _ _) rfl
      subst hso
      simp [collectLoop, ih2]

/-- C3 (amended): if `save_paper_info` raises for a successfully-downloaded
paper (all earlier successes having saved fine), the exception propagates
uncaught out of `run`: the run aborts, later results are not processed, no
digest is generated, and the paper appears in no digest. -/
theorem save_failure_aborts_run (pre post : List ((Bool × Paper) × SaveOutcome))
    (p : Paper) (m today : String)
    (hpre : ∀ r ∈ pre, r.1.1 = true → r.2 = SaveOutcome.savedOk) :
    runTail (pre ++ ((true, p), SaveOutcome.saveRaised m) :: post) today
      = Except.error m := by
  simp [runTail, collectLoop_err m p post pre hpre]

/-- C3 witness at a concrete run. -/
theorem save_failure_aborts_run_witness :
    runTail ([] ++ ((true, samplePaper), SaveOutcome.saveRaised "disk full")
        :: [((true, samplePaper2), SaveOutcome.savedOk)]) "2026-10-12"
      = Except.error "disk full" :=
  save_failure_aborts_run [] [((true, samplePaper2), SaveOutcome.savedOk)]
    samplePaper "disk full" "2026-10-12" (by simp)

theorem httpFallbackGo_all_err (url path : String) (http : Nat → HttpResult) (retry : Nat)
    (h : ∀ n, httpErrStatus (http n) = true) :
    ∀ fuel attempt,
      (httpFallbackGo url path http retry attempt fuel).2 = false ∧
      countEff isHttpGet (httpFallbackGo url path http retry attempt fuel).1 = fuel ∧
      countEff isSleep (httpFallbackGo url path http retry attempt fuel).1 = 0 := by
  intro fuel
  induction fuel with
  | zero => exact fun _ => ⟨rfl, rfl, rfl⟩
  | succ fuel ih =>
    intro attempt
    obtain ⟨h1, h2, h3⟩ := ih (attempt + 1)
    have herr := h attempt
    cases hres : http attempt with
    | ok s c =>
      rw [hres] at herr
      have hs : ¬s = 200 := by simpa [httpErrStatus] using herr
      simp only [countEff] at h2 h3 ⊢
      simp [httpFallbackGo, hres, hs, List.filter_cons, isHttpGet, isSleep, h1, h2, h3]
    | exn m =>
      rw [hres] at herr
      simp [httpErrStatus] at herr

/-- C1 (amended): when the canonical file is absent, `aria2c` runs but exits
non-zero, and every fallback response is a non-200 status, the fallback
performs exactly `retry` attempts, makes no further attempt, returns failure
— and sleeps not at all: the fixed 3-second backoff is applied only after a
transport error (exception), not after a non-200 status. -/
theorem fallback_retry_bound (paper : Paper) (retry : Nat) (env : LinuxEnv) (c : Int)
    (hfs : env.fsExists (pdfPath env.pdfDir paper) = false)
    (haria : env.aria = AriaResult.exitCode c) (hc : c ≠ 0)
    (hhttp : ∀ n, httpErrStatus (env.http n) = true) :
    (downloadSingleLinux paper retry env).2 = PyRet.ret (false, paper) ∧
    countEff isHttpGet (downloadSingleLinux paper retry env).1 = retry ∧
    countEff isSleep (downloadSingleLinux paper retry env).1 = 0 := by
  obtain ⟨h1, h2, h3⟩ := httpFallbackGo_all_err paper.pdf_url (pdfPath env.pdfDir paper)
    env.http retry hhttp retry 0
  have hmain : downloadSingleLinux paper retry env =
      ([Effect.mkdir (datePdfDir env.pdfDir paper),
        Effect.logInfo ("正在下载: " ++ paper.title), Effect.spawn "aria2c"]
        ++ (httpFallbackGo paper.pdf_url (pdfPath env.pdfDir paper) env.http retry 0 retry).1
        ++ [Effect.logError ("所有下载方式均失败: " ++ paper.title)],
       PyRet.ret (false, paper)) := by
    simp [downloadSingleLinux, hfs, haria, hc, finishFallback, httpFallback, h1]
  rw [hmain]
  simp only [countEff] at h2 h3 ⊢
  simp [List.filter_append, List.filter_cons, isHttpGet, isSleep, h2, h3]

/-- A Linux environment with no local files, a failing `aria2c`, and a remote
that always answers HTTP 500. -/
def c1Env : LinuxEnv :=
  { pdfDir := "/papers/pdfs", fsExists := fun _ => false
    aria := AriaResult.exitCode 1, http := fun _ => HttpResult.ok 500 "" }

/-- C1 counterexample: with every fallback response HTTP 500 and a retry
budget of 3, the code performs three attempts and sleeps zero times — there
is no backoff delay between attempts on a non-200 status, contrary to the
claim. -/
theorem fallback_no_sleep_on_status_cex :
    countEff isHttpGet (downloadSingleLinux samplePaper 3 c1Env).1 = 3 ∧
    countEff isSleep (downloadSingleLinux samplePaper 3 c1Env).1 = 0 ∧
    (downloadSingleLinux samplePaper 3 c1Env).2 = PyRet.ret (false, samplePaper) := by
  refine ⟨?_, ?_, ?_⟩ <;> rfl

/-- C1 witness at a concrete paper and environment. -/
theorem fallback_retry_bound_witness :
    (downloadSingleLinux samplePaper 3 c1Env).2 = PyRet.ret (false, samplePaper) ∧
    countEff isHttpGet (downloadSingleLinux samplePaper 3 c1Env).1 = 3 ∧
    countEff isSleep (downloadSingleLinux samplePaper 3 c1Env).1 = 0 :=
  fallback_retry_bound samplePaper 3 c1Env 1 rfl rfl (by decide) (fun _ => rfl)

/-- C7: if `aria2c` cannot be located on Linux, the run terminates
immediately with exit code 1 after logging the install hint, with no
fallback attempt; if IDM cannot be located on Windows, its absence is only
logged as a warning and the paper falls through to the HTTP fallback. -/
theorem fast_tool_missing (paper : Paper) (retry : Nat) (env : LinuxEnv) (wenv : WinEnv) :
    (env.fsExists (pdfPath env.pdfDir paper) = false →
     env.aria = AriaResult.notFound →
       (downloadSingleLinux paper retry env).2 = PyRet.exited 1 ∧
       Effect.logError "未找到 aria2c,请先安装: sudo apt install aria2"
         ∈ (downloadSingleLinux paper retry env).1 ∧
       countEff isHttpGet (downloadSingleLinux paper retry env).1 = 0) ∧
    (wenv.fsExists (pdfPath wenv.pdfDir paper) = false →
     wenv.fsExists idmPath1 = false →
     wenv.fsExists idmPath2 = false →
     wenv.idmRaises = none →
       downloadSingleWindows paper retry wenv =
         finishFallback paper retry wenv.http (pdfPath wenv.pdfDir paper)
           [Effect.mkdir (datePdfDir wenv.pdfDir paper),
            Effect.logInfo ("正在下载: " ++ paper.title),
            Effect.logWarn "未找到 IDM 安装路径,尝试普通下载"]) := by
  constructor
  · intro hfs haria
    refine ⟨?_, ?_, ?_⟩ <;>
      simp [downloadSingleLinux, hfs, haria, countEff, List.filter_cons, isHttpGet]
  · intro hfs h1 h2 hraises
    simp [downloadSingleWindows, hfs, hraises, findIdm, h1, h2]

/-- A Linux environment in which the `aria2c` binary is missing. -/
def c7LinuxEnv : LinuxEnv :=
  { pdfDir := "/papers/pdfs", fsExists := fun _ => false
    aria := AriaResult.notFound, http := fun _ => HttpResult.ok 500 "" }

/-- A Windows environment in which IDM is not installed. -/
def c7WinEnv : WinEnv :=
  { pdfDir := "D:/paper/pdfs", fsExists := fun _ => false
    idmRaises := none, idmMakesFile := false, http := fun _ => HttpResult.ok 500 "" }

/-- C7 witness at concrete environments for both platforms. -/
theorem fast_tool_missing_witness :
    ((downloadSingleLinux samplePaper 3 c7LinuxEnv).2 = PyRet.exited 1 ∧
     Effect.logError "未找到 aria2c,请先安装: sudo apt install aria2"
       ∈ (downloadSingleLinux samplePaper 3 c7LinuxEnv).1 ∧
     countEff isHttpGet (downloadSingleLinux samplePaper 3 c7LinuxEnv).1 = 0) ∧
    downloadSingleWindows samplePaper 3 c7WinEnv =
      finishFallback samplePaper 3 c7WinEnv.http (pdfPath c7WinEnv.pdfDir samplePaper)
        [Effect.mkdir (datePdfDir c7WinEnv.pdfDir samplePaper),
         Effect.logInfo ("正在下载: " ++ samplePaper.title),
         Effect.logWarn "未找到 IDM 安装路径,尝试普通下载"] :=
  ⟨(fast_tool_missing samplePaper 3 c7LinuxEnv c7WinEnv).1 rfl rfl,
   (fast_tool_missing samplePaper 3 c7LinuxEnv c7WinEnv).2 rfl rfl rfl rfl⟩

theorem dateDescLe_trans (a b c : String × List Paper) :
    dateDescLe a b → dateDescLe b c → dateDescLe a c := by
  simp only [dateDescLe, decide_eq_true_eq]
  exact fun h1 h2 => le_trans h2 h1

theorem dateDescLe_total (a b : String × List Paper) :
    dateDescLe a b || dateDescLe b a := by
  simp only [dateDescLe, Bool.or_eq_true, decide_eq_true_eq]
  exact (le_total b.1 a.1)

theorem titleLe_trans (a b c : Paper) : titleLe a b → titleLe b c → titleLe a c := by
  simp only [titleLe, decide_eq_true_eq]
  exact fun h1 h2 => le_trans h1 h2

theorem titleLe_total (a b : Paper) : titleLe a b || titleLe b a := by
  simp only [titleLe, Bool.or_eq_true, decide_eq_true_eq]
  exact le_total (lower a.title) (lower b.title)

/-- C5: the digest's date sections are emitted in strictly descending order
of the date string (given the dict invariant that keys are distinct), and
within each section records are sorted ascending by lowercased title,
whatever the order of the input mapping and its lists. -/
theorem digest_sections_sorted (m : List (String × List Paper))
    (hnd : (m.map Prod.fst).Nodup) :
    ((genSections m).map Prod.fst).Pairwise (fun a b => b < a) ∧
    ∀ s ∈ genSections m,
      s.2.Pairwise (fun a b : Paper => lower a.title ≤ lower b.title) := by
  constructor
  · have hperm : List.Perm ((m.mergeSort dateDescLe).map Prod.fst) (m.map Prod.fst) :=
      (List.mergeSort_perm m dateDescLe).map Prod.fst
    have hnd2 : ((m.mergeSort dateDescLe).map Prod.fst).Nodup := hperm.nodup_iff.mpr hnd
    have hne : (m.mergeSort dateDescLe).Pairwise fun a b => a.1 ≠ b.1 := by
      simpa [List.Nodup, List.pairwise_map] using hnd2
    have hsorted : (m.mergeSort dateDescLe).Pairwise fun a b => dateDescLe a b :=
      List.sorted_mergeSort dateDescLe_trans dateDescLe_total m
    have hstrict : (m.mergeSort dateDescLe).Pairwise fun a b => b.1 < a.1 := by
      refine (hsorted.and hne).imp ?_
      rintro a b ⟨hle, hn⟩
      simp only [dateDescLe, decide_eq_true_eq] at hle
      exact lt_of_le_of_ne hle (Ne.symm hn)
    simp only [genSections, List.map_map, List.pairwise_map]
    simpa [List.pairwise_map] using hstrict
  · intro s hs
    simp only [genSections, List.mem_map] at hs
    obtain ⟨t, ht, rfl⟩ := hs
    have hsorted : (t.2.mergeSort titleLe).Pairwise fun a b => titleLe a b :=
      List.sorted_mergeSort titleLe_trans titleLe_total t.2
    refine hsorted.imp ?_
    intro a b hab
    simpa [titleLe] using hab

/-- A digest input whose dates and titles arrive unsorted. -/
def c5Input : List (String × List Paper) :=
  [("2024-06-02", [samplePaper2, samplePaper]), ("2024-06-05", [samplePaper])]

/-- C5 witness at a concrete mapping with distinct date keys. -/
theorem digest_sections_sorted_witness :
    ((genSections c5Input).map Prod.fst).Pairwise (fun a b => b < a) ∧
    ∀ s ∈ genSections c5Input,
      s.2.Pairwise (fun a b : Paper => lower a.title ≤ lower b.title) :=
  digest_sections_sorted c5Input (by decide)

end ArxivCrawler
